import Mathlib

/-!
Verification of the TEE attestation provisioner core of oasis-core
(go/runtime/host/sgx).  The Go sources are shallowly embedded: every
collaborator call (AESM quoting service, Intel PCS, consensus registry,
enclave transport) is represented by a value of an environment record that
fixes the outcome that call would have produced during one operation, and
each Go function becomes a pure Lean function from its environment and
inputs to its result together with a trace of the externally visible
effects (PCS fetches, cache stores, enclave calls, counter updates).
-/

namespace Sgx

/-- Decidable equality for Except results, so that concrete runs of the
embedded operations can be checked by evaluation. -/
instance instDecidableEqExcept {ε α : Type} [DecidableEq ε] [DecidableEq α] :
    DecidableEq (Except ε α) := fun a b =>
  match a, b with
  | .ok x, .ok y => decidable_of_iff (x = y) (by simp)
  | .ok _, .error _ => isFalse (fun h => by cases h)
  | .error _, .ok _ => isFalse (fun h => by cases h)
  | .error e, .error f => decidable_of_iff (e = f) (by simp)

/-! ## Opaque data carried through the attestation flow

Quote bytes, bundles, keys and similar payloads are opaque to the control
logic under verification, so each is represented by a small record or a
natural-number identifier. -/

/-- A TCB bundle obtained from Intel PCS or from the cache (opaque payload). -/
abbrev TCBBundle := Nat

/-- Raw quote bytes produced by the quoting service (opaque payload). -/
abbrev RawQuote := Nat

/-- Error returned by pcs.Quote.Verify, as distinguished by
teeStateECDSA.verifyBundle: a TCBOutOfDateError carries a status and
advisory identifiers; every other failure is opaque. -/
inductive VError where
  | tcbOutOfDate (status : Nat) (advisories : List Nat)
  | other (msg : String)
deriving DecidableEq, Repr

/-- Error produced by teeStateECDSA.verifyBundle. -/
inductive VerifyBundleErr where
  | nilBundle
  | tcbOutOfDate (status : Nat) (advisories : List Nat)
  | verificationFailed (which : String) (msg : String)
deriving DecidableEq, Repr

/-- Mapping of a quote-verification error to the error verifyBundle reports:
a TCBOutOfDateError is passed through unchanged, anything else is wrapped
with the name of the bundle being checked. -/
def toBundleErr (which : String) (e : VError) : VerifyBundleErr :=
  match e with
  | .tcbOutOfDate s a => .tcbOutOfDate s a
  | .other m => .verificationFailed which m

/-- Embedding of teeStateECDSA.verifyBundle: a nil bundle is rejected
outright; otherwise the quote is verified against the bundle under the
current policy (the outcome of quote.Verify is supplied by the
environment as the oracle `verify`).  On success the validated bundle is
returned. -/
def verifyBundle (verify : TCBBundle → Option VError) (b : Option TCBBundle)
    (which : String) : Except VerifyBundleErr TCBBundle :=
  match b with
  | none => .error .nilBundle
  | some bundle =>
    match verify bundle with
    | none => .ok bundle
    | some e => .error (toBundleErr which e)

/-- Collaborator outcomes for one run of the TCB bundle selection block of
teeStateECDSA.Update: the cached entry and refresh flag returned by
tcbCache.check, the results of the (up to two) pcs.GetTCBBundle calls, and
the quote-verification oracle. -/
structure TcbEnv where
  cached : Option TCBBundle
  refresh : Bool
  fetch1 : Except String TCBBundle
  fetch2 : Except String TCBBundle
  verify : TCBBundle → Option VError

/-- Error with which the TCB bundle selection block fails. -/
inductive TcbSelectErr where
  | bothFailed (cachedErr : VerifyBundleErr)
  | fetchFailed (msg : String)
  | forcedVerifyFailed (e : VerifyBundleErr)
deriving DecidableEq, Repr

/-- Result of the TCB bundle selection block: the selected bundle or the
fatal error, together with the bundles stored into the cache and the
number of PCS downloads attempted. -/
structure TcbSelectResult where
  result : Except TcbSelectErr TCBBundle
  stored : List TCBBundle
  fetches : Nat
deriving DecidableEq, Repr

/-- Embedding of the anonymous TCB-bundle selection closure inside
teeStateECDSA.Update (fresh bundle first, then cached, then a forced
download when no scheduled refresh ran). -/
def tcbSelect (env : TcbEnv) : TcbSelectResult :=
  if env.refresh then
    match verifyBundle env.verify env.fetch1.toOption "fresh" with
    | .ok b => ⟨.ok b, [b], 1⟩
    | .error _ =>
      match verifyBundle env.verify env.cached "cached" with
      | .ok c => ⟨.ok c, [], 1⟩
      | .error ce => ⟨.error (.bothFailed ce), [], 1⟩
  else
    match verifyBundle env.verify env.cached "cached" with
    | .ok c => ⟨.ok c, [], 0⟩
    | .error _ =>
      match env.fetch2 with
      | .error m => ⟨.error (.fetchFailed m), [], 1⟩
      | .ok b =>
        match verifyBundle env.verify (some b) "downloaded" with
        | .ok b2 => ⟨.ok b2, [b2], 1⟩
        | .error e => ⟨.error (.forcedVerifyFailed e), [], 1⟩

/-- Statement of the refresh policy taken from the specification text
(section 4.4, steps 1 to 4), written independently of the source so the
two can be compared: (1) when a refresh is due, fetch from Intel PCS and,
when the fetched bundle verifies, store and use it; (2) otherwise try the
cached bundle and use it when it verifies; (3) when step 1 did not run,
force a fetch whose fetch or verification failure is fatal, storing the
bundle only when it verifies; (4) when step 1 ran and both bundles failed,
fail with the verification error of the cached bundle. -/
def tcbSelectSpec (env : TcbEnv) : TcbSelectResult :=
  if env.refresh then
    match env.fetch1 with
    | .ok b =>
      match env.verify b with
      | none => ⟨.ok b, [b], 1⟩
      | some _ =>
        match verifyBundle env.verify env.cached "cached" with
        | .ok c => ⟨.ok c, [], 1⟩
        | .error ce => ⟨.error (.bothFailed ce), [], 1⟩
    | .error _ =>
      match verifyBundle env.verify env.cached "cached" with
      | .ok c => ⟨.ok c, [], 1⟩
      | .error ce => ⟨.error (.bothFailed ce), [], 1⟩
  else
    match verifyBundle env.verify env.cached "cached" with
    | .ok c => ⟨.ok c, [], 0⟩
    | .error _ =>
      match env.fetch2 with
      | .error m => ⟨.error (.fetchFailed m), [], 1⟩
      | .ok b =>
        match env.verify b with
        | none => ⟨.ok b, [b], 1⟩
        | some e => ⟨.error (.forcedVerifyFailed (toBundleErr "downloaded" e)), [], 1⟩

end Sgx

namespace Sgx

/-- C1: for every ECDSA Update, the TCB bundle selection block of the
source behaves exactly as the four-step procedure stated in the
specification: refresh-due fetches are verified and stored before use,
the cached bundle is the fallback, a forced fetch only happens when no
scheduled refresh ran and its failures are fatal, and when a refresh ran
and both bundles failed the cached verification error is surfaced. -/
theorem tcb_selection_follows_spec_procedure (env : TcbEnv) :
    tcbSelect env = tcbSelectSpec env := by
  obtain ⟨cached, refresh, f1, f2, verify⟩ := env
  cases refresh <;> rcases f1 with m1 | b1 <;> rcases cached with _ | c <;>
    rcases f2 with m2 | b2 <;>
    simp only [tcbSelect, tcbSelectSpec, verifyBundle, Except.toOption] <;>
    (try cases hv1 : verify b1) <;> (try cases hv2 : verify c) <;>
    (try cases hv3 : verify b2) <;> simp_all

/-! ## The full ECDSA Update (teeStateECDSA.Update) -/

/-- Certification-data variant embedded in an ECDSA quote signature, as
distinguished by the switch in teeStateECDSA.Update. -/
inductive CertDataKind where
  | pckCertChain
  | ppid
  | unsupported (tag : Nat)
deriving DecidableEq, Repr

/-- Signature variant of a decoded quote: the type assertion in
teeStateECDSA.Update accepts only QuoteSignatureECDSA_P256. -/
inductive QuoteSig where
  | ecdsaP256 (certData : CertDataKind)
  | other (keyType : String)
deriving DecidableEq, Repr

/-- Decoded view of a quote, restricted to the parts the driver inspects. -/
structure ParsedQuote where
  sig : QuoteSig
deriving DecidableEq, Repr

/-- Information extracted from a validated PCK certificate chain. -/
structure PCKInfo where
  fmspc : Nat
deriving DecidableEq, Repr

/-- Response of the RakQuote enclave call. -/
structure RakQuoteResp where
  height : Nat
  signature : Nat
deriving DecidableEq, Repr

/-- Collaborator outcomes for one run of teeStateECDSA.Update: the AESM
GetQuoteEx result, the outcome of decoding it, the PCK verification
outcome, the quote-policy read from the consensus registry (the policy may
legitimately be absent), the TCB selection collaborators and the enclave
RakQuote transport outcome (where a transport success may still carry a
nil response body). -/
structure UpdateEnv where
  getQuote : Except String RawQuote
  parseQuote : Except String ParsedQuote
  verifyPCK : Except String PCKInfo
  policy : Except String (Option Nat)
  tcb : TcbEnv
  rakQuote : Except String (Option RakQuoteResp)

/-- Error with which teeStateECDSA.Update fails. -/
inductive UpdateErr where
  | getQuoteFailed (msg : String)
  | parseFailed (msg : String)
  | unsupportedKeyType (keyType : String)
  | ppidNotSupported
  | unsupportedCertData (tag : Nat)
  | pckVerifyFailed (msg : String)
  | policyFailed (msg : String)
  | tcbFailed (e : TcbSelectErr)
  | rakQuoteCallFailed (msg : String)
  | unexpectedResponse
deriving DecidableEq, Repr

/-- Canonical attestation assembled at the end of a successful Update. -/
structure Attestation where
  quote : RawQuote
  tcb : TCBBundle
  height : Nat
  signature : Nat
deriving DecidableEq, Repr

/-- Result of one Update together with the externally visible effects:
number of PCS downloads, number of RakQuote enclave calls, and the bundles
stored into the TCB cache. -/
structure UpdateResult where
  result : Except UpdateErr Attestation
  pcsFetches : Nat
  rakQuoteCalls : Nat
  stored : List TCBBundle
deriving DecidableEq, Repr

/-- Embedding of teeStateECDSA.Update: obtain a quote over the report from
AESM, decode it, require an ECDSA-P256 signature with a PCK certificate
chain (PPID certification data is unsupported), verify the PCK chain,
read the quote policy from the consensus registry, select a TCB bundle
via the cache logic, and finally hand the quote bundle to the enclave via
RakQuote to assemble the attestation.  The nonce argument is present in
the Go signature but discarded (written `_ string` in the source). -/
def ecdsaUpdate (env : UpdateEnv) (_nonce : String) : UpdateResult :=
  match env.getQuote with
  | .error m => ⟨.error (.getQuoteFailed m), 0, 0, []⟩
  | .ok rawQuote =>
    match env.parseQuote with
    | .error m => ⟨.error (.parseFailed m), 0, 0, []⟩
    | .ok pq =>
      match pq.sig with
      | .other t => ⟨.error (.unsupportedKeyType t), 0, 0, []⟩
      | .ecdsaP256 certData =>
        match certData with
        | .ppid => ⟨.error .ppidNotSupported, 0, 0, []⟩
        | .unsupported t => ⟨.error (.unsupportedCertData t), 0, 0, []⟩
        | .pckCertChain =>
          match env.verifyPCK with
          | .error m => ⟨.error (.pckVerifyFailed m), 0, 0, []⟩
          | .ok _pckInfo =>
            match env.policy with
            | .error m => ⟨.error (.policyFailed m), 0, 0, []⟩
            | .ok _quotePolicy =>
              let sel := tcbSelect env.tcb
              match sel.result with
              | .error e => ⟨.error (.tcbFailed e), sel.fetches, 0, sel.stored⟩
              | .ok bundle =>
                match env.rakQuote with
                | .error m =>
                  ⟨.error (.rakQuoteCallFailed m), sel.fetches, 1, sel.stored⟩
                | .ok none =>
                  ⟨.error .unexpectedResponse, sel.fetches, 1, sel.stored⟩
                | .ok (some rsp) =>
                  ⟨.ok ⟨rawQuote, bundle, rsp.height, rsp.signature⟩,
                    sel.fetches, 1, sel.stored⟩

/-- Every bundle the TCB selection block stores into the cache passed
quote verification. -/
theorem tcbSelect_stored_verified (tenv : TcbEnv) (b : TCBBundle)
    (hb : b ∈ (tcbSelect tenv).stored) : tenv.verify b = none := by
  obtain ⟨cached, refresh, f1, f2, verify⟩ := tenv
  cases refresh <;> rcases f1 with m1 | b1 <;> rcases cached with _ | c <;>
    rcases f2 with m2 | b2 <;>
    simp only [tcbSelect, verifyBundle, Except.toOption] at hb ⊢ <;>
    (try cases hv1 : verify b1) <;> (try cases hv2 : verify c) <;>
    (try cases hv3 : verify b2) <;> simp_all

/-- A failing TCB selection stores nothing. -/
theorem tcbSelect_error_stores_nothing (tenv : TcbEnv) (e : TcbSelectErr)
    (he : (tcbSelect tenv).result = .error e) : (tcbSelect tenv).stored = [] := by
  obtain ⟨cached, refresh, f1, f2, verify⟩ := tenv
  cases refresh <;> rcases f1 with m1 | b1 <;> rcases cached with _ | c <;>
    rcases f2 with m2 | b2 <;>
    simp only [tcbSelect, verifyBundle, Except.toOption] at he ⊢ <;>
    (try cases hv1 : verify b1) <;> (try cases hv2 : verify c) <;>
    (try cases hv3 : verify b2) <;> simp_all

/-- The stored-bundle trace of a whole Update comes from its TCB selection
block. -/
theorem ecdsaUpdate_stored_sub (env : UpdateEnv) (nonce : String) (b : TCBBundle)
    (hb : b ∈ (ecdsaUpdate env nonce).stored) : b ∈ (tcbSelect env.tcb).stored := by
  unfold ecdsaUpdate at hb
  repeat' split at hb
  all_goals ((try cases hsel : (tcbSelect env.tcb).result) <;> simp_all)

/-- C2: the TCB cache is only ever written with a bundle whose verification
against the current quote and policy just succeeded, and a failing TCB
selection (fetch failure or verification failure) leaves the cache
untouched. -/
theorem cache_stores_only_verified_bundles (env : UpdateEnv) (nonce : String) :
    (∀ b, b ∈ (ecdsaUpdate env nonce).stored → env.tcb.verify b = none) ∧
    (∀ e, (tcbSelect env.tcb).result = .error e → (tcbSelect env.tcb).stored = []) := by
  constructor
  · intro b hb
    exact tcbSelect_stored_verified env.tcb b (ecdsaUpdate_stored_sub env nonce b hb)
  · intro e he
    exact tcbSelect_error_stores_nothing env.tcb e he

/-- Environment of a concrete successful Update used to instantiate the
cache invariant: the scheduled refresh downloads bundle 42, which
verifies, is stored, and is used. -/
def updateEnvStore : UpdateEnv where
  getQuote := .ok 11
  parseQuote := .ok ⟨.ecdsaP256 .pckCertChain⟩
  verifyPCK := .ok ⟨77⟩
  policy := .ok (some 5)
  tcb := { cached := none, refresh := true, fetch1 := .ok 42, fetch2 := .error "unused",
           verify := fun _ => none }
  rakQuote := .ok (some ⟨1000, 99⟩)

/-- Witness for the cache invariant: in the concrete run above, bundle 42
is stored and the theorem yields that its verification succeeded. -/
theorem cache_stores_only_verified_bundles_witness :
    42 ∈ (ecdsaUpdate updateEnvStore "nonce").stored ∧
    updateEnvStore.tcb.verify 42 = none := by
  refine ⟨?_, ?_⟩
  · show 42 ∈ (ecdsaUpdate updateEnvStore "nonce").stored
    decide
  · exact (cache_stores_only_verified_bundles updateEnvStore "nonce").1 42 (by decide)

/-- C3: when the decoded quote carries PPID certification data, the Update
fails with the dedicated unsupported error having made no PCS download and
no RakQuote enclave call. -/
theorem ppid_update_fails_unsupported_without_calls (env : UpdateEnv) (nonce : String)
    (rq : RawQuote) (hq : env.getQuote = .ok rq)
    (hp : env.parseQuote = .ok ⟨.ecdsaP256 .ppid⟩) :
    (ecdsaUpdate env nonce).result = .error .ppidNotSupported ∧
    (ecdsaUpdate env nonce).pcsFetches = 0 ∧
    (ecdsaUpdate env nonce).rakQuoteCalls = 0 := by
  unfold ecdsaUpdate
  rw [hq, hp]
  exact ⟨rfl, rfl, rfl⟩

/-- Environment of a concrete Update whose quote carries PPID certification
data; all later collaborators are primed to answer so that any call to
them would be visible in the trace. -/
def updateEnvPpid : UpdateEnv where
  getQuote := .ok 12
  parseQuote := .ok ⟨.ecdsaP256 .ppid⟩
  verifyPCK := .ok ⟨77⟩
  policy := .ok (some 5)
  tcb := { cached := some 41, refresh := true, fetch1 := .ok 42, fetch2 := .ok 43,
           verify := fun _ => none }
  rakQuote := .ok (some ⟨1000, 99⟩)

/-- Witness for the PPID behaviour at the concrete environment above. -/
theorem ppid_update_fails_unsupported_without_calls_witness :
    (ecdsaUpdate updateEnvPpid "n").result = .error .ppidNotSupported ∧
    (ecdsaUpdate updateEnvPpid "n").pcsFetches = 0 ∧
    (ecdsaUpdate updateEnvPpid "n").rakQuoteCalls = 0 :=
  ppid_update_fails_unsupported_without_calls updateEnvPpid "n" 12 rfl rfl

/-- C10: the result of an ECDSA Update, including its whole effect trace,
is independent of the nonce received from the RakReport response; the Go
signature discards the nonce parameter. -/
theorem update_ignores_nonce (env : UpdateEnv) (nonce1 nonce2 : String) :
    ecdsaUpdate env nonce1 = ecdsaUpdate env nonce2 := rfl

/-! ## Attestation key selection (teeStateECDSA.Init and the teeState dispatcher) -/

/-- Algorithm tag of an attestation key reported by the AESM quoting
service. -/
inductive AttKeyType where
  | ecdsaP256
  | epid
deriving DecidableEq, Repr

/-- An attestation key identifier reported by AESM. -/
structure AttKey where
  id : Nat
  keyType : AttKeyType
deriving DecidableEq, Repr

/-- The part of the registry consensus parameters inspected by Init:
whether the TEEFeatures block is present and whether its SGX.PCS flag is
set. -/
structure RegParams where
  teeFeaturesPresent : Bool
  sgxPCS : Bool
deriving DecidableEq, Repr

/-- Collaborator outcomes for one run of teeStateECDSA.Init: the registry
consensus-parameter read, the AESM attestation-key listing, and the AESM
target-info request for the chosen key. -/
structure ECDSAInitEnv where
  regParams : Except String RegParams
  akeys : Except String (List AttKey)
  targetInfo : AttKey → Except String Nat

/-- The first ECDSA-P256-capable key of the AESM listing, as selected by
the loop in teeStateECDSA.Init. -/
def findECDSAKey (ks : List AttKey) : Option AttKey :=
  ks.find? (fun k => k.keyType == AttKeyType.ecdsaP256)

/-- Fields of teeStateECDSA that Init assigns. -/
structure ECDSAState where
  runtimeID : Nat
  version : Nat
  key : Option AttKey
deriving DecidableEq, Repr

/-- Embedding of teeStateECDSA.Init: check that the registry supports PCS,
list the AESM attestation keys, pick the first ECDSA-P256-capable one,
fetch the QE target info for it, and only then assign the state fields
(the field assignments in the source happen after every collaborator call
succeeded, so a failing Init leaves the state untouched).  The source also
creates a fresh tcbCache object at this point. -/
def ecdsaInit (env : ECDSAInitEnv) (runtimeID version : Nat) :
    Except String (ECDSAState × Nat) :=
  match env.regParams with
  | .error m => .error ("unable to determine registry consensus parameters: " ++ m)
  | .ok rp =>
    if !(rp.teeFeaturesPresent && rp.sgxPCS) then
      .error "ECDSA not supported by the registry"
    else
      match env.akeys with
      | .error m => .error ("unable to fetch attestation key IDs: " ++ m)
      | .ok ks =>
        match findECDSAKey ks with
        | none => .error "no suitable ECDSA attestation keys found"
        | some key =>
          match env.targetInfo key with
          | .error m => .error m
          | .ok ti => .ok (⟨runtimeID, version, some key⟩, ti)

/-- The implementation variant held by teeState: the ECDSA implementation
with its state, or the EPID implementation (whose internals no claim
needs). -/
inductive TeeImpl where
  | ecdsa (st : ECDSAState)
  | epid
deriving DecidableEq, Repr

/-- Collaborator outcomes for the teeState dispatcher: the ECDSA Init
environment and the outcome of teeStateEPID.Init, which lives outside the
embedded sources and is therefore supplied as an opaque result. -/
structure TeeInitEnv where
  ecdsaEnv : ECDSAInitEnv
  epidInit : Except String Nat

/-- Embedding of teeState.init: refuse double initialization, try the
ECDSA implementation first and fall back to EPID whenever ECDSA Init
returned any error. -/
def teeStateInit (cur : Option TeeImpl) (env : TeeInitEnv) (runtimeID version : Nat) :
    Except String (TeeImpl × Nat) :=
  match cur with
  | some _ => .error "already initialized"
  | none =>
    match ecdsaInit env.ecdsaEnv runtimeID version with
    | .ok (st, ti) => .ok (.ecdsa st, ti)
    | .error _ =>
      match env.epidInit with
      | .ok ti => .ok (.epid, ti)
      | .error m => .error m

/-- Embedding of teeState.updateTargetInfo: require an initialized state
and re-run the Init of the current implementation (the source literally
calls ts.impl.Init again, which for ECDSA re-selects the key and
re-creates the tcbCache). -/
def teeStateUpdateTargetInfo (cur : Option TeeImpl) (env : TeeInitEnv)
    (runtimeID version : Nat) : Except String (TeeImpl × Nat) :=
  match cur with
  | none => .error "not initialized"
  | some (.ecdsa _) =>
    match ecdsaInit env.ecdsaEnv runtimeID version with
    | .ok (st, ti) => .ok (.ecdsa st, ti)
    | .error m => .error m
  | some .epid =>
    match env.epidInit with
    | .ok ti => .ok (.epid, ti)
    | .error m => .error m

/-- A successful ECDSA Init selects exactly the first ECDSA-capable key of
the AESM listing of that run, together with the supplied runtime identity. -/
theorem ecdsaInit_key (env : ECDSAInitEnv) (rid v ti : Nat) (st : ECDSAState)
    (ks : List AttKey) (hks : env.akeys = .ok ks)
    (h : ecdsaInit env rid v = .ok (st, ti)) :
    st.key = findECDSAKey ks := by
  unfold ecdsaInit at h
  repeat' split at h
  all_goals simp_all
  rw [← h.1]

/-- Attestation keys used by the concrete key-reselection scenario. -/
def keyA : AttKey := ⟨1, .ecdsaP256⟩

/-- A second, distinct ECDSA-capable attestation key. -/
def keyB : AttKey := ⟨2, .ecdsaP256⟩

/-- Init environment in which AESM reports only keyA. -/
def initEnvKeyA : TeeInitEnv where
  ecdsaEnv := { regParams := .ok ⟨true, true⟩, akeys := .ok [keyA],
                targetInfo := fun _ => .ok 7 }
  epidInit := .error "unused"

/-- Init environment in which AESM reports only keyB (an aesmd upgrade
between two attestation rounds). -/
def initEnvKeyB : TeeInitEnv where
  ecdsaEnv := { regParams := .ok ⟨true, true⟩, akeys := .ok [keyB],
                targetInfo := fun _ => .ok 8 }
  epidInit := .error "unused"

/-- Counterexample to C4: after initialization selected keyA, the
target-info refresh that updateCapabilityTEE performs at the start of the
next Attest re-runs Init against the new AESM listing and replaces the
selected key with keyB, so the key is not immutable after initialization. -/
theorem attestation_key_reselected_counterexample :
    teeStateInit none initEnvKeyA 3 1 = .ok (.ecdsa ⟨3, 1, some keyA⟩, 7) ∧
    teeStateUpdateTargetInfo (some (.ecdsa ⟨3, 1, some keyA⟩)) initEnvKeyB 3 1 =
      .ok (.ecdsa ⟨3, 1, some keyB⟩, 8) ∧
    keyA ≠ keyB := by
  refine ⟨rfl, rfl, ?_⟩
  decide

/-- C4 amended: the attestation key is re-selected on every Attest; a
successful target-info refresh on an ECDSA state replaces the key with the
first ECDSA-capable key of the current AESM listing, independently of the
previously selected key. -/
theorem update_target_info_reselects_key (st st2 : ECDSAState) (env : TeeInitEnv)
    (rid v ti : Nat) (ks : List AttKey)
    (hks : env.ecdsaEnv.akeys = .ok ks)
    (h : teeStateUpdateTargetInfo (some (.ecdsa st)) env rid v = .ok (.ecdsa st2, ti)) :
    st2.key = findECDSAKey ks := by
  simp only [teeStateUpdateTargetInfo] at h
  split at h
  next st3 ti3 heq =>
    have h4 : st3 = st2 := TeeImpl.ecdsa.inj (congrArg Prod.fst (Except.ok.inj h))
    exact h4 ▸ ecdsaInit_key env.ecdsaEnv rid v ti3 st3 ks hks heq
  next m heq => exact absurd h (by simp)

/-- Witness for the key re-selection theorem at the concrete scenario of
the counterexample: the refreshed state holds the first ECDSA key of the
new listing. -/
theorem update_target_info_reselects_key_witness :
    (⟨3, 1, some keyB⟩ : ECDSAState).key = findECDSAKey [keyB] :=
  update_target_info_reselects_key ⟨3, 1, some keyA⟩ ⟨3, 1, some keyB⟩
    initEnvKeyB 3 1 8 [keyB] rfl rfl

/-- Init environment in which the registry supports PCS but AESM reports
no ECDSA-capable key, while EPID initialization succeeds. -/
def initEnvNoKeys : TeeInitEnv where
  ecdsaEnv := { regParams := .ok ⟨true, true⟩, akeys := .ok [⟨4, .epid⟩],
                targetInfo := fun _ => .ok 0 }
  epidInit := .ok 9

/-- Counterexample to C5: an Init run in which the registry supports PCS
(TEEFeatures present, SGX.PCS set) and EPID is nevertheless selected,
because the AESM listing has no ECDSA-capable key. -/
theorem epid_selected_with_pcs_supported_counterexample :
    initEnvNoKeys.ecdsaEnv.regParams = .ok ⟨true, true⟩ ∧
    teeStateInit none initEnvNoKeys 3 1 = .ok (.epid, 9) :=
  ⟨rfl, rfl⟩

/-- C5 amended: Init prefers ECDSA and falls back to EPID exactly when
ECDSA initialization failed for any reason (the registry disallowing PCS
is only one such reason): a successful ECDSA Init is always selected, and
EPID is selected only when ECDSA Init returned an error and EPID Init
succeeded. -/
theorem init_prefers_ecdsa_falls_back_on_any_failure (env : TeeInitEnv) (rid v : Nat) :
    (∀ st ti, ecdsaInit env.ecdsaEnv rid v = .ok (st, ti) →
      teeStateInit none env rid v = .ok (.ecdsa st, ti)) ∧
    (∀ ti, teeStateInit none env rid v = .ok (.epid, ti) →
      (∃ m, ecdsaInit env.ecdsaEnv rid v = .error m) ∧ env.epidInit = .ok ti) := by
  constructor
  · intro st ti h
    simp [teeStateInit, h]
  · intro ti h
    cases he : ecdsaInit env.ecdsaEnv rid v with
    | ok p => obtain ⟨st, ti2⟩ := p; simp [teeStateInit, he] at h
    | error m =>
      refine ⟨⟨m, rfl⟩, ?_⟩
      cases hp : env.epidInit with
      | error m2 => simp [teeStateInit, he, hp] at h
      | ok ti2 =>
        simp [teeStateInit, he, hp] at h
        rw [h]

/-- Witness for the fallback theorem: the ECDSA-preferred branch at the
keyA environment, and the EPID fallback at the no-ECDSA-key environment. -/
theorem init_prefers_ecdsa_falls_back_on_any_failure_witness :
    teeStateInit none initEnvKeyA 3 1 = .ok (.ecdsa ⟨3, 1, some keyA⟩, 7) ∧
    ((∃ m, ecdsaInit initEnvNoKeys.ecdsaEnv 3 1 = .error m) ∧
      initEnvNoKeys.epidInit = .ok 9) :=
  ⟨(init_prefers_ecdsa_falls_back_on_any_failure initEnvKeyA 3 1).1 ⟨3, 1, some keyA⟩ 7 rfl,
    (init_prefers_ecdsa_falls_back_on_any_failure initEnvNoKeys 3 1).2 9 rfl⟩

/-! ## Attestation metrics (UpdateAttestationMetrics and teeState.update) -/

/-- The three per-runtime attestation counters. -/
structure AttestationMetrics where
  performed : Nat
  successful : Nat
  failed : Nat
deriving DecidableEq, Repr

/-- Embedding of UpdateAttestationMetrics: a no-op unless metrics are
enabled; otherwise the performed counter is incremented, together with the
failed counter when the Update returned an error and the successful
counter otherwise. -/
def updateAttestationMetrics (enabled : Bool) (errOccurred : Bool)
    (m : AttestationMetrics) : AttestationMetrics :=
  if !enabled then m
  else if errOccurred then
    { m with performed := m.performed + 1, failed := m.failed + 1 }
  else
    { m with performed := m.performed + 1, successful := m.successful + 1 }

/-- Error with which teeState.update fails. -/
inductive TeeUpdateErr where
  | notInitialized
  | implErr (e : UpdateErr)
deriving DecidableEq, Repr

/-- Embedding of teeState.update: require an initialized implementation,
run its Update (whose already-computed outcome is passed in), and record
the outcome in the attestation metrics. -/
def teeStateUpdate (cur : Option TeeImpl) (enabled : Bool)
    (implResult : Except UpdateErr Attestation) (m : AttestationMetrics) :
    Except TeeUpdateErr Attestation × AttestationMetrics :=
  match cur with
  | none => (.error .notInitialized, m)
  | some _ =>
    match implResult with
    | .ok a => (.ok a, updateAttestationMetrics enabled false m)
    | .error e => (.error (.implErr e), updateAttestationMetrics enabled true m)

/-- Counterexample to C6: an Update that runs on an initialized state and
fails, yet increments no counter at all, because metrics are disabled
(UpdateAttestationMetrics returns early when metrics are not enabled). -/
theorem metrics_disabled_counterexample :
    (teeStateUpdate (some .epid) false (.error .ppidNotSupported) ⟨0, 0, 0⟩).1 =
      .error (.implErr .ppidNotSupported) ∧
    (teeStateUpdate (some .epid) false (.error .ppidNotSupported) ⟨0, 0, 0⟩).2 =
      ⟨0, 0, 0⟩ :=
  ⟨rfl, rfl⟩

/-- C6 amended: when metrics are enabled, every Update on an initialized
state increments the performed counter exactly once, and exactly one of
the failed or successful counters alongside it, failed exactly when the
Update returned an error. -/
theorem metrics_count_when_enabled (impl : TeeImpl)
    (r : Except UpdateErr Attestation) (m : AttestationMetrics) :
    (teeStateUpdate (some impl) true r m).2.performed = m.performed + 1 ∧
    (teeStateUpdate (some impl) true r m).2.failed =
      m.failed + (match r with | .error _ => 1 | .ok _ => 0) ∧
    (teeStateUpdate (some impl) true r m).2.successful =
      m.successful + (match r with | .error _ => 0 | .ok _ => 1) := by
  cases r <;> simp [teeStateUpdate, updateAttestationMetrics]

/-! ## Capability refresh and the attestation worker -/

/-- Response of the RakReport enclave call. -/
structure RakReportResp where
  rakPub : Nat
  rekPub : Nat
  report : Nat
  nonce : String
deriving DecidableEq, Repr

/-- The capability structure assembled by updateCapabilityTEE. -/
structure CapabilityTEE where
  rakPub : Nat
  rekPub : Nat
  attestation : Attestation
deriving DecidableEq, Repr

/-- Error with which updateCapabilityTEE fails. -/
inductive CapErr where
  | targetInfoFailed (msg : String)
  | rakInitFailed (msg : String)
  | rakReportFailed (msg : String)
  | updateFailed (e : TeeUpdateErr)
deriving DecidableEq, Repr

/-- Collaborator outcomes for one run of updateCapabilityTEE: the
target-info refresh environment, the two enclave transport calls, the
ECDSA Update environment, the (out-of-scope) EPID Update outcome, and the
metrics flag. -/
structure CapTEEEnv where
  initEnv : TeeInitEnv
  rakInitCall : Except String Unit
  rakReport : Except String RakReportResp
  updateEnv : UpdateEnv
  epidUpdate : Except UpdateErr Attestation
  metricsEnabled : Bool

/-- Result of one updateCapabilityTEE run, with the implementation state
it leaves behind and the metrics after it. -/
structure CapTEEResult where
  result : Except CapErr CapabilityTEE
  impl : Option TeeImpl
  metrics : AttestationMetrics
deriving DecidableEq, Repr

/-- Embedding of sgxProvisioner.updateCapabilityTEE: refresh the report
target info (re-running the implementation Init), hand the target info to
the enclave, request the enclave report, run the implementation Update
through teeState.update, and assemble the capability. -/
def updateCapabilityTEE (cur : Option TeeImpl) (env : CapTEEEnv) (rid v : Nat)
    (m : AttestationMetrics) : CapTEEResult :=
  match teeStateUpdateTargetInfo cur env.initEnv rid v with
  | .error msg => ⟨.error (.targetInfoFailed msg), cur, m⟩
  | .ok (impl2, _targetInfo) =>
    match env.rakInitCall with
    | .error msg => ⟨.error (.rakInitFailed msg), some impl2, m⟩
    | .ok _ =>
      match env.rakReport with
      | .error msg => ⟨.error (.rakReportFailed msg), some impl2, m⟩
      | .ok rr =>
        let implResult : Except UpdateErr Attestation :=
          match impl2 with
          | .ecdsa _ => (ecdsaUpdate env.updateEnv rr.nonce).result
          | .epid => env.epidUpdate
        match teeStateUpdate (some impl2) env.metricsEnabled implResult m with
        | (.error e, m2) => ⟨.error (.updateFailed e), some impl2, m2⟩
        | (.ok a, m2) => ⟨.ok ⟨rr.rakPub, rr.rekPub, a⟩, some impl2, m2⟩

/-- Reason the attestation worker loop wakes up: process termination, the
periodic ticker, or an explicit notification. -/
inductive WakeReason where
  | processExit
  | tick
  | notify
deriving DecidableEq, Repr

/-- Externally visible behaviour of one iteration of the worker loop. -/
structure WorkerStep where
  terminated : Bool
  timerReset : Bool
  attested : Bool
  eventEmitted : Bool
deriving DecidableEq, Repr

/-- Embedding of one iteration of sgxProvisioner.attestationWorker: a
process-exit signal returns from the loop; a tick or a notification runs
updateCapabilityTEE (a notification additionally resets the periodic
ticker first); when the capability refresh fails the error is logged and
the loop continues without emitting an event, otherwise the updated
capability event is emitted. -/
def attestationWorkerStep (r : WakeReason) (upd : Except CapErr CapabilityTEE) :
    WorkerStep :=
  match r with
  | .processExit => ⟨true, false, false, false⟩
  | .tick =>
    match upd with
    | .error _ => ⟨false, false, true, false⟩
    | .ok _ => ⟨false, false, true, true⟩
  | .notify =>
    match upd with
    | .error _ => ⟨false, true, true, false⟩
    | .ok _ => ⟨false, true, true, true⟩

/-- C7: a failed re-attestation round, whether periodic or explicitly
requested, neither terminates the worker nor emits an updated-capability
event; the loop goes back to waiting. -/
theorem worker_survives_update_error (r : WakeReason) (e : CapErr)
    (hr : r ≠ .processExit) :
    (attestationWorkerStep r (.error e)).terminated = false ∧
    (attestationWorkerStep r (.error e)).eventEmitted = false := by
  cases r with
  | processExit => exact absurd rfl hr
  | tick => exact ⟨rfl, rfl⟩
  | notify => exact ⟨rfl, rfl⟩

/-- Witness for worker survival at a concrete failed periodic round. -/
theorem worker_survives_update_error_witness :
    (attestationWorkerStep .tick (.error (.rakInitFailed "enclave gone"))).terminated
      = false ∧
    (attestationWorkerStep .tick (.error (.rakInitFailed "enclave gone"))).eventEmitted
      = false :=
  worker_survives_update_error .tick (.rakInitFailed "enclave gone") (by decide)

/-! ## The explicit-refresh notifier

Modelled from the spec: the notifier channel of the RuntimeHandle
(sandbox.HostInitializerParams.NotifyUpdateCapabilityTEE) is created
outside the embedded sources; per the specification it is level-triggered
with coalescing, so the pending state is a single boolean flag that any
number of deliveries sets and one receive clears. -/

/-- Delivering one notification sets the pending flag (idempotent). -/
def notifySignal (_pending : Bool) : Bool := true

/-- Delivering a burst of notifications while the worker is busy with an
in-flight Attest. -/
def notifyTimes : Nat → Bool → Bool
  | 0, p => p
  | Nat.succ n, p => notifyTimes n (notifySignal p)

/-- When the worker finishes the in-flight Attest and returns to its
select, a set pending flag yields exactly one follow-up Attest and clears
the flag; an unset flag yields none.  Returns the number of follow-up
Attests and the pending flag afterwards. -/
def drainNotifications (pending : Bool) : Nat × Bool :=
  if pending then (1, false) else (0, false)

/-- Any burst of notifications leaves the flag simply set. -/
theorem notifyTimes_true (n : Nat) : notifyTimes n true = true := by
  induction n with
  | zero => rfl
  | succ m ih => exact ih

/-- C8: a burst of one or more notifications delivered during one
in-flight Attest coalesces into a single set pending flag, hence exactly
one follow-up Attest and none beyond it, and the wake-up that serves the
notification resets the periodic timer (the source resets the ticker in
the notification branch of the worker select). -/
theorem notifier_coalesces_to_one_followup (n : Nat) (hn : 1 ≤ n)
    (upd : Except CapErr CapabilityTEE) :
    (drainNotifications (notifyTimes n false)).1 = 1 ∧
    (drainNotifications (notifyTimes n false)).2 = false ∧
    (attestationWorkerStep .notify upd).timerReset = true := by
  obtain ⟨m, rfl⟩ : ∃ m, n = m + 1 := ⟨n - 1, (Nat.succ_pred_eq_of_pos hn).symm⟩
  have hp : notifyTimes (m + 1) false = true := notifyTimes_true m
  refine ⟨?_, ?_, ?_⟩
  · rw [hp]; rfl
  · rw [hp]; rfl
  · cases upd <;> rfl

/-- Witness for notifier coalescing at a burst of one hundred
notifications during one Attest. -/
theorem notifier_coalesces_to_one_followup_witness :
    (drainNotifications (notifyTimes 100 false)).1 = 1 ∧
    (drainNotifications (notifyTimes 100 false)).2 = false ∧
    (attestationWorkerStep .notify (.error (.rakInitFailed "x"))).timerReset = true :=
  notifier_coalesces_to_one_followup 100 (by decide) (.error (.rakInitFailed "x"))

/-! ## The mock driver (teeStateMock.Update) -/

/-- Collaborator outcomes for one run of teeStateMock.Update: the
deterministic synthetic quote over the report, the decode outcome, the PCK
verification outcome, the direct PCS bundle download, and the enclave
quote configuration call. -/
structure MockEnv where
  mockQuote : Except String RawQuote
  parseQuote : Except String ParsedQuote
  verifyPCK : Except String PCKInfo
  getTCBBundle : Except String TCBBundle
  updateRuntimeQuote : Except String Nat

/-- Result of one mock Update with its effect trace: the number of PCS
downloads, TCB cache operations (checks or stores) and enclave RakQuote
calls performed. -/
structure MockUpdateResult where
  result : Except String Nat
  pcsFetches : Nat
  tcbCacheOps : Nat
  rakQuoteCalls : Nat
deriving DecidableEq, Repr

/-- Embedding of teeStateMock.Update: produce a deterministic synthetic
quote over the report, decode it, require an ECDSA-P256 signature, verify
the PCK chain, download the TCB bundle directly from the PCS client, and
hand the quote bundle to the enclave.  No TCB cache is consulted or
written and the downloaded bundle is not verified against the quote. -/
def mockUpdate (env : MockEnv) : MockUpdateResult :=
  match env.mockQuote with
  | .error m => ⟨.error ("failed to get quote: " ++ m), 0, 0, 0⟩
  | .ok _raw =>
    match env.parseQuote with
    | .error m => ⟨.error ("failed to parse quote: " ++ m), 0, 0, 0⟩
    | .ok pq =>
      match pq.sig with
      | .other t => ⟨.error ("unsupported attestation key type: " ++ t), 0, 0, 0⟩
      | .ecdsaP256 _ =>
        match env.verifyPCK with
        | .error m => ⟨.error ("PCK verification failed: " ++ m), 0, 0, 0⟩
        | .ok _ =>
          match env.getTCBBundle with
          | .error m => ⟨.error m, 1, 0, 0⟩
          | .ok _b =>
            match env.updateRuntimeQuote with
            | .error m => ⟨.error m, 1, 0, 1⟩
            | .ok att => ⟨.ok att, 1, 0, 1⟩

/-- Environment of a fully successful mock Update run. -/
def mockEnvOk : MockEnv where
  mockQuote := .ok 21
  parseQuote := .ok ⟨.ecdsaP256 .pckCertChain⟩
  verifyPCK := .ok ⟨77⟩
  getTCBBundle := .ok 42
  updateRuntimeQuote := .ok 33

/-- Counterexample to C9: a fully successful mock Update that calls the
enclave with the quote bundle while performing zero TCB cache operations;
the bundle comes from a direct PCS download, so the mock path does not
run through the TCBCache. -/
theorem mock_update_no_cache_counterexample :
    (mockUpdate mockEnvOk).result = .ok 33 ∧
    (mockUpdate mockEnvOk).rakQuoteCalls = 1 ∧
    (mockUpdate mockEnvOk).tcbCacheOps = 0 ∧
    (mockUpdate mockEnvOk).pcsFetches = 1 :=
  ⟨rfl, rfl, rfl, rfl⟩

/-- C9 amended: the mock Update runs the synthetic quote through the
decoder and PCK verification and only calls the enclave after those and a
direct PCS bundle download succeeded, but it never touches the TCBCache. -/
theorem mock_update_flow (env : MockEnv) :
    (mockUpdate env).tcbCacheOps = 0 ∧
    ((mockUpdate env).rakQuoteCalls = 1 →
      (∃ pq, env.parseQuote = .ok pq) ∧
      (∃ pi, env.verifyPCK = .ok pi) ∧
      (∃ b, env.getTCBBundle = .ok b)) := by
  constructor
  · unfold mockUpdate
    repeat' split
    all_goals rfl
  · intro hcall
    unfold mockUpdate at hcall
    repeat' split at hcall
    all_goals simp_all

/-- Witness for the mock flow at the successful concrete run. -/
theorem mock_update_flow_witness :
    (mockUpdate mockEnvOk).tcbCacheOps = 0 ∧
    ((∃ pq, mockEnvOk.parseQuote = .ok pq) ∧
     (∃ pi, mockEnvOk.verifyPCK = .ok pi) ∧
     (∃ b, mockEnvOk.getTCBBundle = .ok b)) :=
  ⟨(mock_update_flow mockEnvOk).1, (mock_update_flow mockEnvOk).2 rfl⟩

end Sgx
